import Mathlib

/-!
Shallow embedding of `langchain_azure_storage/blob_storage_loader.py`: the
blob-to-document loader `AzureBlobStorageLoader` with its blocking
(`lazy_load`) and non-blocking (`alazy_load`) iteration surfaces, the
credential-resolution helper `_get_sdk_credential`, and the custom-loader
bridge `_lazy_load_from_custom_loader` / `_alazy_load_from_custom_loader`.

Remote state (the blob container) is modelled as an explicit value passed to
each run, and the network accesses a run performs are recorded as an event
trace, so "before any network call" is expressed as an empty trace.
-/

deriving instance DecidableEq for Except

namespace BlobStorageLoader

/-- Python dict of string keys and values, as an association list; lookup
returns the first binding. -/
abbrev Metadata := List (String × String)

/-- Python `m[k] = v` on a dict: replace the existing binding for `k` in
place, or append a new binding at the end. -/
def dictSet : Metadata → String → String → Metadata
  | [], k, v => [(k, v)]
  | (k', v') :: rest, k, v =>
      if k' = k then (k, v) :: rest else (k', v') :: dictSet rest k v

/-- Python `m.get(k)` on a dict: the binding for `k`, if any. -/
def dictGet : Metadata → String → Option String
  | [], _ => none
  | (k', v') :: rest, k => if k' = k then some v' else dictGet rest k

/-- langchain `Document`: a text payload plus a metadata mapping. -/
structure Document where
  page_content : String
  metadata : Metadata
deriving DecidableEq

/-- one blob stored in the container: its name, its raw content (the loader
decodes it to text) and its declared content type. -/
structure BlobEntry where
  name : String
  content : String
  content_type : String
deriving DecidableEq

/-- remote container state: the stored blobs, in the service's listing order. -/
structure Container where
  blobs : List BlobEntry
deriving DecidableEq

/-- `container_client.list_blob_names(name_starts_with=pre)` (source lines 145
and 163): the names of the blobs whose name starts with `pre`, in the
container's natural order; the empty `pre` matches every blob. -/
def startsWith (s pre : String) : Bool :=
  pre.data.isPrefixOf s.data

def listBlobNames (c : Container) (pre : String) : List String :=
  (c.blobs.filter (fun b => startsWith b.name pre)).map (fun b => b.name)

/-- SDK credential value held in `self._credential`, as the closed set of
variants the source inspects with `isinstance`: Python `None` (`unset`),
`AzureSasCredential` (`sas`), a blocking `TokenCredential` (`syncBearer`), a
non-blocking `AsyncTokenCredential` (`asyncBearer`), and the
`{"sync": ..., "async": ...}` default-identity dict that
`_get_sdk_credential` builds (`resolvedPair`). -/
inductive Credential
  | unset
  | sas
  | syncBearer
  | asyncBearer
  | resolvedPair
deriving DecidableEq

/-- errors a run can raise. `configurationError` is the `ValueError` raised on
a credential/mode mismatch (the spec's ConfigurationError); `typeError` is
Python's built-in `TypeError`. -/
inductive LoadError
  | configurationError (msg : String)
  | typeError (msg : String)
deriving DecidableEq

/-- `_get_sdk_credential` (source lines 100-112): `None` becomes the
default-identity pair; the three accepted SDK credential classes pass through
unchanged; anything else — in particular the dict pair itself, fed back on a
second run of the same instance — raises
`TypeError("Invalid credential type provided.")`. -/
def getSdkCredential : Credential → Except LoadError Credential
  | .unset => .ok .resolvedPair
  | .sas => .ok .sas
  | .syncBearer => .ok .syncBearer
  | .asyncBearer => .ok .asyncBearer
  | .resolvedPair => .error (.typeError "Invalid credential type provided.")

/-- `isinstance(self._credential, azure.core.credentials_async.AsyncTokenCredential)`
(source line 139), on the values `self._credential` can hold after
resolution. The `AsyncTokenCredential` `@runtime_checkable` Protocol
requires `get_token`, `close`, `__aenter__` and `__aexit__`; blocking bearer
credentials and SAS credentials lack the async context-manager members, so
only non-blocking bearer credentials match. -/
def isAsyncTokenCredential : Credential → Bool
  | .asyncBearer => true
  | _ => false

/-- `isinstance(self._credential, (azure.core.credentials.TokenCredential,
azure.core.credentials.AzureSasCredential))` (source line 156), on the values
`self._credential` can hold after resolution. `TokenCredential` is a
`@runtime_checkable` Protocol whose only member is `get_token`, and
`isinstance` against such a Protocol checks member presence structurally, so
it matches blocking bearer credentials and — because they also expose a
`get_token` method — non-blocking bearer credentials as well;
`AzureSasCredential` is named in the tuple and matches nominally. Only the
default-resolved dict pair (a plain dict with no `get_token`) fails the
check, so `alazy_load` rejects every explicit credential. -/
def isTokenCredentialOrSas : Credential → Bool
  | .syncBearer => true
  | .sas => true
  | .asyncBearer => true
  | _ => false

/-- the `blob_names` constructor argument
(`Optional[Union[str, Iterable[str]]]`, source line 119): Python `None`, a
single `str`, or a list of names. -/
inductive BlobNames
  | pyNone
  | pyStr (s : String)
  | pyList (names : List String)
deriving DecidableEq

/-- Python `for blob_name in self._blob_names` (source lines 146 and 165):
iterating `None` raises `TypeError`; iterating a `str` yields its characters
as one-character strings; iterating a list yields its elements in order. -/
def iterBlobNames : BlobNames → Except LoadError (List String)
  | .pyNone => .error (.typeError "NoneType object is not iterable")
  | .pyStr s => .ok (s.data.map (fun ch => String.mk [ch]))
  | .pyList names => .ok names

/-- constructor arguments of `AzureBlobStorageLoader` (source lines 115-135),
i.e. the state one instance carries across runs. The external
`loader_factory` is modelled by the documents the produced loader emits from
the staged file's content (the factory receives a path to a file holding
exactly the blob's content). -/
structure Config where
  account_url : String
  container_name : String
  blob_names : BlobNames
  pre : String
  credential : Credential
  loader_factory : Option (String → List Document)

/-- `f"{self._account_url}/{self._container_name}"` (source lines 141 and 158). -/
def containerUrl (cfg : Config) : String :=
  cfg.account_url ++ "/" ++ cfg.container_name

/-- canonical URL of one blob, `blob_client.url` for the client obtained via
`container_client.get_blob_client(blob_name)`. -/
def blobUrl (cfg : Config) (name : String) : String :=
  containerUrl cfg ++ "/" ++ name

/-- `doc.metadata["source"] = blob_client.url` (source lines 76 and 95)
applied to one produced document. -/
def overwriteSource (url : String) (d : Document) : Document :=
  { d with metadata := dictSet d.metadata "source" url }

/-- how the lazily produced document sequence of
`_lazy_load_from_custom_loader` / `_alazy_load_from_custom_loader` ends:
`exhausted` — the consumer pulls until the external loader is done, so the
loop over its documents completes normally; `loaderRaises k` — the external
loader (or the factory call itself, for `k = 0`) raises after producing `k`
documents; `consumerStops k` — the consumer abandons iteration after
consuming `k` documents, so the generator is closed while suspended at a
`yield` (`GeneratorExit`). -/
inductive ExitMode
  | exhausted
  | loaderRaises (k : Nat)
  | consumerStops (k : Nat)
deriving DecidableEq

/-- observable outcome of one bridge call: the documents that reached the
consumer, whether the sequence ended by raising, and whether the staged
temporary file is still on disk once the sequence has ended. -/
structure BridgeOutcome where
  emitted : List Document
  raised : Bool
  temp_file_exists : Bool
deriving DecidableEq

/-- `_lazy_load_from_custom_loader(blob_client, loader_factory)` (source
lines 69-78), given the documents `loaderDocs` that the external loader
produces from the staged file and the blob's canonical URL `url`. The
source's control flow is a generator body with no try/finally:

* lines 70-72 create a `NamedTemporaryFile` and leave the `with` block at
  once (which closes and deletes the placeholder, keeping only its path);
  line 73 then re-creates a file at that path holding the blob's content;
* lines 75-77 loop over the external loader's documents, overwriting each
  document's `source` metadata with `url` before yielding it;
* line 78, `os.remove(file_path)`, runs only when that loop completes
  normally. If the external loader raises, the exception propagates out of
  the generator from line 75 and line 78 is never reached; if the consumer
  stops early, closing the generator raises `GeneratorExit` at the `yield`
  on line 77 and line 78 is never reached. In both of those cases the
  staged file stays on disk. -/
def lazyLoadFromCustomLoader (loaderDocs : List Document) (url : String) :
    ExitMode → BridgeOutcome
  | .exhausted =>
      { emitted := loaderDocs.map (overwriteSource url),
        raised := false, temp_file_exists := false }
  | .loaderRaises k =>
      { emitted := (loaderDocs.take k).map (overwriteSource url),
        raised := true, temp_file_exists := true }
  | .consumerStops k =>
      { emitted := (loaderDocs.take k).map (overwriteSource url),
        raised := false, temp_file_exists := true }

/-- `_alazy_load_from_custom_loader(blob_client, loader_factory)` (source
lines 88-97): the non-blocking twin of `_lazy_load_from_custom_loader`, an
async generator with the same body — temporary path from the discarded
`NamedTemporaryFile` (lines 89-91), download to that path (line 92), loop
over `loader.alazy_load()` overwriting `source` and yielding (lines 94-96),
and `os.remove` (line 97) reached only on normal loop completion. -/
def alazyLoadFromCustomLoader (loaderDocs : List Document) (url : String) :
    ExitMode → BridgeOutcome
  | .exhausted =>
      { emitted := loaderDocs.map (overwriteSource url),
        raised := false, temp_file_exists := false }
  | .loaderRaises k =>
      { emitted := (loaderDocs.take k).map (overwriteSource url),
        raised := true, temp_file_exists := true }
  | .consumerStops k =>
      { emitted := (loaderDocs.take k).map (overwriteSource url),
        raised := false, temp_file_exists := true }

/-- network accesses a run performs, in order. Constructing a client object
is not a network call; listing the container and downloading a blob are. -/
inductive Event
  | listBlobs (container_url : String) (pre : String)
  | downloadBlob (name : String)
deriving DecidableEq

/-- `c.blobs.find?` by name: the blob the service returns for
`get_blob_client(name).download_blob()`. Whenever `name` is drawn from
`listBlobNames c pre` the lookup succeeds. -/
def findBlob (c : Container) (name : String) : Option BlobEntry :=
  c.blobs.find? (fun b => b.name == name)

/-- `_lazy_load_documents_from_blob(blob_client, parser)` with `parser =
None` (source lines 28-42), which is the only way the orchestrator calls it
(it passes `self._loader_factory`, which is `None` on that branch): one
download, then exactly one `Document` whose text is the blob's content and
whose metadata is `{"source": blob_client.url}`. -/
def lazyLoadDocumentsFromBlob (url : String) (entry : BlobEntry) : List Document :=
  [{ page_content := entry.content, metadata := [("source", url)] }]

/-- documents one in-listing blob contributes to a full run: the direct
materialization when no `loader_factory` is configured (source lines
151-152 and 171-173), or the custom-loader bridge driven to exhaustion
(source lines 149-150 and 168-170). A blob name absent from the container
contributes nothing (unreachable when the name comes from the listing). -/
def docsForBlob (cfg : Config) (c : Container) (name : String) : List Document :=
  match findBlob c name with
  | none => []
  | some entry =>
      match cfg.loader_factory with
      | some factory =>
          (lazyLoadFromCustomLoader (factory entry.content) (blobUrl cfg name)
            ExitMode.exhausted).emitted
      | none => lazyLoadDocumentsFromBlob (blobUrl cfg name) entry

/-- the per-name loop shared by `lazy_load` (source lines 146-152) and
`alazy_load` (source lines 165-173): for each requested name in order, if it
occurs in the prefix-filtered listing, download that blob and emit its
documents; otherwise skip it silently. Returns the emitted documents and
the download events, both in loop order. -/
def emitBlobs (cfg : Config) (c : Container) (listing : List String) :
    List String → List Document × List Event
  | [] => ([], [])
  | name :: rest =>
      let tail := emitBlobs cfg c listing rest
      if listing.contains name then
        (docsForBlob cfg c name ++ tail.1, Event.downloadBlob name :: tail.2)
      else tail

/-- observable outcome of one run of `lazy_load` or `alazy_load`: the
documents (or the error that ended iteration), the instance state after the
run, and the network events the run performed. -/
structure RunResult where
  result : Except LoadError (List Document)
  final : Config
  events : List Event

/-- `AzureBlobStorageLoader.lazy_load` (source lines 137-152), fully
iterated against container state `c`. Mirrors the source order: first
`self._credential = _get_sdk_credential(self._credential)` (line 138; on a
`TypeError` the assignment does not happen), then the mode check (lines
139-140), then the container listing (lines 141-145, the first network
access), then the loop over `self._blob_names` (lines 146-152, which raises
`TypeError` when `blob_names` is `None`, after the listing already ran). -/
def lazyLoadRun (cfg : Config) (c : Container) : RunResult :=
  match getSdkCredential cfg.credential with
  | .error e => ⟨.error e, cfg, []⟩
  | .ok cred =>
      let cfg' := { cfg with credential := cred }
      if isAsyncTokenCredential cred then
        ⟨.error (.configurationError "Async credential provided to sync method."),
          cfg', []⟩
      else
        let listing := listBlobNames c cfg'.pre
        match iterBlobNames cfg'.blob_names with
        | .error e =>
            ⟨.error e, cfg', [Event.listBlobs (containerUrl cfg') cfg'.pre]⟩
        | .ok names =>
            let out := emitBlobs cfg' c listing names
            ⟨.ok out.1, cfg', Event.listBlobs (containerUrl cfg') cfg'.pre :: out.2⟩

/-- `AzureBlobStorageLoader.alazy_load` (source lines 154-175), fully
iterated against container state `c`. Same shape as `lazyLoadRun` with the
complementary mode check (lines 156-157): it rejects any credential matched
by `isinstance(..., (TokenCredential, AzureSasCredential))`, which includes
`AzureSasCredential` and — through the structural `runtime_checkable`
Protocol match on `get_token` — every bearer-token credential, non-blocking
ones included; only the default-resolved dict pair passes. The listing is accumulated asynchronously into a list
(lines 162-164) and the final `close()` of the default async credential
(lines 174-175) does not affect the emitted documents or the stored state. -/
def alazyLoadRun (cfg : Config) (c : Container) : RunResult :=
  match getSdkCredential cfg.credential with
  | .error e => ⟨.error e, cfg, []⟩
  | .ok cred =>
      let cfg' := { cfg with credential := cred }
      if isTokenCredentialOrSas cred then
        ⟨.error (.configurationError "Sync credential provided to async method."),
          cfg', []⟩
      else
        let listing := listBlobNames c cfg'.pre
        match iterBlobNames cfg'.blob_names with
        | .error e =>
            ⟨.error e, cfg', [Event.listBlobs (containerUrl cfg') cfg'.pre]⟩
        | .ok names =>
            let out := emitBlobs cfg' c listing names
            ⟨.ok out.1, cfg', Event.listBlobs (containerUrl cfg') cfg'.pre :: out.2⟩

/-- selection policy of §4.2 of the spec, stated on names: the requested
names that occur in the listing, in requested order. -/
def select (requested listing : List String) : List String :=
  requested.filter (fun name => listing.contains name)

/-- credentials the blocking entry point accepts: `getSdkCredential`
succeeds on them and the resolved value fails the async-credential check. -/
def syncModeAccepts : Credential → Bool
  | .unset => true
  | .sas => true
  | .syncBearer => true
  | _ => false

/-- credentials the non-blocking entry point accepts: `getSdkCredential`
succeeds on them and the resolved value fails the line-156 check. Since
that check structurally matches every bearer credential and names
`AzureSasCredential`, only the default (`None`) credential — resolved to
the dict pair — is accepted. -/
def asyncModeAccepts : Credential → Bool
  | .unset => true
  | _ => false

/-- result both entry points compute once their mode check has passed:
iterate `blob_names` (possibly a `TypeError`) and emit, for each iterated
name in order that occurs in the prefix-filtered listing, that blob's
documents. -/
def coreResult (cfg : Config) (c : Container) : Except LoadError (List Document) :=
  match iterBlobNames cfg.blob_names with
  | .error e => .error e
  | .ok names =>
      .ok ((select names (listBlobNames c cfg.pre)).flatMap (docsForBlob cfg c))

/-- three-blob container used by several concrete evaluations: the spec's
scenario container `docs` holding `a.txt`, `b.txt`, `c.txt`. -/
def contDocs : Container :=
  ⟨[⟨"a.txt", "A", "text/plain"⟩, ⟨"b.txt", "B", "text/plain"⟩,
    ⟨"c.txt", "C", "text/plain"⟩]⟩

/-- scenario configuration of §8 of the spec: prefix `"a"`, requested names
`["a.txt", "c.txt"]`, an explicit shared-access-signature credential, no
loader factory. -/
def cfgScenario : Config :=
  ⟨"https://acct.blob.core.windows.net", "docs",
    BlobNames.pyList ["a.txt", "c.txt"], "a", Credential.sas, none⟩

/-- configuration exercising the `blob_names = None` default. -/
def cfgNoNames : Config :=
  ⟨"https://acct.blob.core.windows.net", "docs", BlobNames.pyNone, "",
    Credential.sas, none⟩

/-- configuration passing a shared-access-signature credential, with one
requested blob present in the container. -/
def cfgSas : Config :=
  ⟨"https://acct.blob.core.windows.net", "docs", BlobNames.pyList ["a.txt"],
    "", Credential.sas, none⟩

/-- configuration passing a single blob name as one plain string. -/
def cfgSingleStr : Config :=
  ⟨"https://acct.blob.core.windows.net", "docs", BlobNames.pyStr "a.txt", "",
    Credential.sas, none⟩

/-- configuration passing a non-blocking bearer-token credential. -/
def cfgAsyncBearer : Config :=
  ⟨"https://acct.blob.core.windows.net", "docs", BlobNames.pyList ["a.txt"],
    "", Credential.asyncBearer, none⟩

/-- configuration passing a blocking bearer-token credential. -/
def cfgSyncBearer : Config :=
  ⟨"https://acct.blob.core.windows.net", "docs", BlobNames.pyList ["a.txt"],
    "", Credential.syncBearer, none⟩

/-- configuration relying on the default identity (`credential = None`). -/
def cfgDefaultCred : Config :=
  ⟨"https://acct.blob.core.windows.net", "docs", BlobNames.pyList ["a.txt"],
    "", Credential.unset, none⟩

/-- one document as an external loader would produce it, carrying its own
`source` metadata value that the bridge must discard. -/
def extLoaderDoc : Document :=
  ⟨"chunk", [("source", "file:///tmp/loader-owned")]⟩

theorem docsForBlob_credential (cfg : Config) (x : Credential) (c : Container) :
    docsForBlob { cfg with credential := x } c = docsForBlob cfg c := rfl

theorem coreResult_credential (cfg : Config) (x : Credential) (c : Container) :
    coreResult { cfg with credential := x } c = coreResult cfg c := rfl

theorem emitBlobs_fst (cfg : Config) (c : Container) (listing : List String)
    (names : List String) :
    (emitBlobs cfg c listing names).1
      = (select names listing).flatMap (docsForBlob cfg c) := by
  induction names with
  | nil => rfl
  | cons name rest ih =>
      by_cases h : name ∈ listing <;>
        simp [emitBlobs, select, List.filter_cons, h, ih]

theorem emitBlobs_snd (cfg : Config) (c : Container) (listing : List String)
    (names : List String) :
    (emitBlobs cfg c listing names).2
      = (select names listing).map Event.downloadBlob := by
  induction names with
  | nil => rfl
  | cons name rest ih =>
      by_cases h : name ∈ listing <;>
        simp [emitBlobs, select, List.filter_cons, h, ih]

theorem lazyLoadRun_result_of_sync (cfg : Config) (c : Container)
    (h : syncModeAccepts cfg.credential = true) :
    (lazyLoadRun cfg c).result = coreResult cfg c := by
  cases hcr : cfg.credential <;> rw [hcr] at h <;>
    simp [syncModeAccepts] at h <;>
    cases hbn : iterBlobNames cfg.blob_names <;>
      simp [lazyLoadRun, coreResult, hcr, hbn, getSdkCredential,
        isAsyncTokenCredential, emitBlobs_fst, docsForBlob_credential]

theorem alazyLoadRun_result_of_async (cfg : Config) (c : Container)
    (h : asyncModeAccepts cfg.credential = true) :
    (alazyLoadRun cfg c).result = coreResult cfg c := by
  cases hcr : cfg.credential <;> rw [hcr] at h <;>
    simp [asyncModeAccepts] at h <;>
    cases hbn : iterBlobNames cfg.blob_names <;>
      simp [alazyLoadRun, coreResult, hcr, hbn, getSdkCredential,
        isTokenCredentialOrSas, emitBlobs_fst, docsForBlob_credential]

theorem dictGet_dictSet (m : Metadata) (k v : String) :
    dictGet (dictSet m k v) k = some v := by
  induction m with
  | nil => simp [dictSet, dictGet]
  | cons kv rest ih =>
      by_cases h : kv.1 = k <;> simp [dictSet, dictGet, h, ih]

/-- Claim C1: with an explicit (non-`None`) list of requested blob names,
`lazy_load` and `alazy_load` succeed and emit exactly the documents of the
requested names that occur in the prefix-filtered listing, in the order of
the requested-names list; requested names absent from that listing are
skipped without any error. -/
theorem C1_requested_names_selection (cfg : Config) (c : Container)
    (xs : List String) (hn : cfg.blob_names = BlobNames.pyList xs) :
    (syncModeAccepts cfg.credential = true →
      (lazyLoadRun cfg c).result
        = .ok ((select xs (listBlobNames c cfg.pre)).flatMap (docsForBlob cfg c)))
    ∧ (asyncModeAccepts cfg.credential = true →
      (alazyLoadRun cfg c).result
        = .ok ((select xs (listBlobNames c cfg.pre)).flatMap (docsForBlob cfg c))) := by
  refine ⟨fun h => ?_, fun h => ?_⟩
  · rw [lazyLoadRun_result_of_sync cfg c h]
    simp [coreResult, hn, iterBlobNames]
  · rw [alazyLoadRun_result_of_async cfg c h]
    simp [coreResult, hn, iterBlobNames]

/-- witness for C1, instantiating the spec's §8 scenario: container `docs`
holds `a.txt`, `b.txt`, `c.txt`; prefix `"a"`; requested names
`["a.txt", "c.txt"]`. In both modes (the non-blocking one run with the
default credential, the only one it accepts) exactly one document is
emitted, sourced from `a.txt`; `c.txt` is skipped without error. -/
theorem C1_witness :
    (lazyLoadRun cfgScenario contDocs).result
      = .ok [⟨"A", [("source", "https://acct.blob.core.windows.net/docs/a.txt")]⟩]
    ∧ (alazyLoadRun { cfgScenario with credential := Credential.unset } contDocs).result
      = .ok [⟨"A", [("source", "https://acct.blob.core.windows.net/docs/a.txt")]⟩] := by
  have h1 := (C1_requested_names_selection cfgScenario contDocs
    ["a.txt", "c.txt"] rfl).1 (by decide)
  have h2 := (C1_requested_names_selection
    { cfgScenario with credential := Credential.unset } contDocs
    ["a.txt", "c.txt"] rfl).2 (by decide)
  rw [h1, h2]
  exact ⟨by decide, by decide⟩

/-- Claim C2 (code bug): with the mode-appropriate bearer-token credential
on each side — a blocking `TokenCredential` for `lazy_load`, a non-blocking
`AsyncTokenCredential` for `alazy_load` — the two entry points do not yield
the same sequence: the blocking run emits its documents while the
non-blocking run raises `ValueError("Sync credential provided to async
method.")`, because line 156's `isinstance` against the `runtime_checkable`
`TokenCredential` Protocol structurally matches async bearer credentials
through the presence of `get_token`. -/
theorem C2_bearer_mode_divergence_eval :
    (lazyLoadRun cfgSyncBearer contDocs).result
        = .ok [⟨"A", [("source", "https://acct.blob.core.windows.net/docs/a.txt")]⟩]
    ∧ (alazyLoadRun cfgAsyncBearer contDocs).result
        = .error (.configurationError "Sync credential provided to async method.")
    ∧ (lazyLoadRun cfgSyncBearer contDocs).result
        ≠ (alazyLoadRun cfgAsyncBearer contDocs).result := by
  refine ⟨by decide, rfl, by decide⟩

/-- Claim C3 (code bug): with `blob_names = None` both entry points raise
`TypeError` from `for blob_name in self._blob_names` instead of emitting
the whole prefix-filtered listing; the listing itself (what the claim says
should be emitted, three blobs here) is non-empty, so the divergence is
observable. -/
theorem C3_none_blob_names_raises :
    (lazyLoadRun cfgNoNames contDocs).result
        = .error (.typeError "NoneType object is not iterable")
    ∧ (alazyLoadRun { cfgNoNames with credential := Credential.unset }
          contDocs).result
        = .error (.typeError "NoneType object is not iterable")
    ∧ listBlobNames contDocs "" = ["a.txt", "b.txt", "c.txt"] := by
  refine ⟨rfl, rfl, by decide⟩

/-- counterexample for C4: a shared-access-signature credential passed to
the non-blocking entry point is rejected with the credential-mismatch
error, contradicting the claim that it is accepted in either mode. -/
theorem C4_counterexample :
    (alazyLoadRun cfgSas contDocs).result
      = .error (.configurationError "Sync credential provided to async method.") := rfl

/-- Claim C4 as amended: a shared-access-signature credential is accepted by
the blocking entry point (its run never raises the credential-mismatch
error), but the non-blocking entry point rejects it with the
credential-mismatch error before any network access. -/
theorem C4_sas_sync_only (cfg : Config) (c : Container)
    (h : cfg.credential = Credential.sas) :
    (∀ msg, (lazyLoadRun cfg c).result ≠ .error (.configurationError msg))
    ∧ alazyLoadRun cfg c
        = ⟨.error (.configurationError "Sync credential provided to async method."),
            cfg, []⟩ := by
  constructor
  · intro msg
    rw [lazyLoadRun_result_of_sync cfg c (by rw [h]; rfl)]
    cases hbn : cfg.blob_names <;> simp [coreResult, iterBlobNames, hbn]
  · obtain ⟨a, cn, bn, p, cr, lf⟩ := cfg
    have hcr : cr = Credential.sas := h
    subst hcr
    rfl

/-- witness for C4's amended statement at a concrete configuration. -/
theorem C4_witness :
    alazyLoadRun cfgSas contDocs
        = ⟨.error (.configurationError "Sync credential provided to async method."),
            cfgSas, []⟩
    ∧ (lazyLoadRun cfgSas contDocs).result
        ≠ .error (.configurationError "Sync credential provided to async method.") := by
  have h := C4_sas_sync_only cfgSas contDocs rfl
  exact ⟨h.2, h.1 _⟩

/-- Claim C5: a non-blocking bearer-token credential given to the blocking
entry point, or a blocking bearer-token credential given to the
non-blocking entry point, fails with the credential-mismatch error (the
spec's ConfigurationError, a `ValueError` in the source), with the stored
configuration unchanged and an empty network trace — no listing and no
download happen. -/
theorem C5_bearer_mode_mismatch (cfg : Config) (c : Container) :
    (cfg.credential = Credential.asyncBearer →
      lazyLoadRun cfg c
        = ⟨.error (.configurationError "Async credential provided to sync method."),
            cfg, []⟩)
    ∧ (cfg.credential = Credential.syncBearer →
      alazyLoadRun cfg c
        = ⟨.error (.configurationError "Sync credential provided to async method."),
            cfg, []⟩) := by
  constructor
  · intro h
    obtain ⟨a, cn, bn, p, cr, lf⟩ := cfg
    have hcr : cr = Credential.asyncBearer := h
    subst hcr
    rfl
  · intro h
    obtain ⟨a, cn, bn, p, cr, lf⟩ := cfg
    have hcr : cr = Credential.syncBearer := h
    subst hcr
    rfl

/-- witness for C5 at concrete mismatched configurations. -/
theorem C5_witness :
    lazyLoadRun cfgAsyncBearer contDocs
        = ⟨.error (.configurationError "Async credential provided to sync method."),
            cfgAsyncBearer, []⟩
    ∧ alazyLoadRun cfgSyncBearer contDocs
        = ⟨.error (.configurationError "Sync credential provided to async method."),
            cfgSyncBearer, []⟩ :=
  ⟨(C5_bearer_mode_mismatch cfgAsyncBearer contDocs).1 rfl,
    (C5_bearer_mode_mismatch cfgSyncBearer contDocs).2 rfl⟩

/-- Claim C6 (code bug): the staged temporary file survives the loader-raises
and consumer-stops-early exit paths of both bridge generators — `os.remove`
sits after the loop with no try/finally, so it runs only on normal
exhaustion. The claim's "deleted on every exit path" holds only for the
exhaustion path. -/
theorem C6_temp_file_leak_eval :
    (lazyLoadFromCustomLoader [extLoaderDoc] "u"
        (ExitMode.loaderRaises 0)).temp_file_exists = true
    ∧ (lazyLoadFromCustomLoader [extLoaderDoc] "u"
        (ExitMode.consumerStops 1)).temp_file_exists = true
    ∧ (alazyLoadFromCustomLoader [extLoaderDoc] "u"
        (ExitMode.loaderRaises 0)).temp_file_exists = true
    ∧ (alazyLoadFromCustomLoader [extLoaderDoc] "u"
        (ExitMode.consumerStops 1)).temp_file_exists = true
    ∧ (lazyLoadFromCustomLoader [extLoaderDoc] "u"
        ExitMode.exhausted).temp_file_exists = false
    ∧ (alazyLoadFromCustomLoader [extLoaderDoc] "u"
        ExitMode.exhausted).temp_file_exists = false := by
  refine ⟨rfl, rfl, rfl, rfl, rfl, rfl⟩

/-- Claim C7: on a fully consumed bridge sequence, every document the
external loader produced is emitted with its `source` metadata overwritten
to the blob's canonical URL, in both modes, whatever `source` the external
loader had set. -/
theorem C7_source_overwrite (docs : List Document) (url : String) :
    (lazyLoadFromCustomLoader docs url ExitMode.exhausted).emitted
        = docs.map (overwriteSource url)
    ∧ (alazyLoadFromCustomLoader docs url ExitMode.exhausted).emitted
        = docs.map (overwriteSource url)
    ∧ (∀ d, d ∈ (lazyLoadFromCustomLoader docs url ExitMode.exhausted).emitted →
        dictGet d.metadata "source" = some url)
    ∧ (∀ d, d ∈ (alazyLoadFromCustomLoader docs url ExitMode.exhausted).emitted →
        dictGet d.metadata "source" = some url) := by
  refine ⟨rfl, rfl, ?_, ?_⟩ <;>
    · intro d hd
      simp [lazyLoadFromCustomLoader, alazyLoadFromCustomLoader] at hd
      obtain ⟨d', _, rfl⟩ := hd
      simp [overwriteSource, dictGet_dictSet]

/-- witness for C7: the external loader's own `source` value is discarded in
favour of the canonical URL. -/
theorem C7_witness :
    dictGet (overwriteSource "u" extLoaderDoc).metadata "source" = some "u" :=
  (C7_source_overwrite [extLoaderDoc] "u").2.2.1
    (overwriteSource "u" extLoaderDoc) (by decide)

/-- Claim C8 (code bug): a single blob name passed as one plain string is
iterated character by character, so the named blob is never requested: with
blob `a.txt` present and `blob_names = "a.txt"`, the run succeeds but
emits zero documents instead of that blob's documents. -/
theorem C8_single_string_iterates_characters :
    (lazyLoadRun cfgSingleStr contDocs).result = .ok []
    ∧ iterBlobNames (BlobNames.pyStr "a.txt")
        = .ok ["a", ".", "t", "x", "t"]
    ∧ listBlobNames contDocs "" = ["a.txt", "b.txt", "c.txt"] := by
  refine ⟨by decide, by decide, by decide⟩

/-- counterexample for C9: a run started with the default (`None`)
credential overwrites the stored credential field, so the configuration is
not left unchanged. -/
theorem C9_counterexample :
    (lazyLoadRun cfgDefaultCred contDocs).final.credential
      ≠ cfgDefaultCred.credential := by decide

/-- Claim C9 as amended: a run leaves the whole stored configuration
unchanged whenever the credential was supplied explicitly; when the
credential was `None`, the run leaves every field unchanged except the
credential, which it replaces with the resolved default-identity pair. -/
theorem C9_config_frame (cfg : Config) (c : Container) :
    (cfg.credential ≠ Credential.unset →
      (lazyLoadRun cfg c).final = cfg ∧ (alazyLoadRun cfg c).final = cfg)
    ∧ (cfg.credential = Credential.unset →
      (lazyLoadRun cfg c).final = { cfg with credential := Credential.resolvedPair }
      ∧ (alazyLoadRun cfg c).final
          = { cfg with credential := Credential.resolvedPair }) := by
  obtain ⟨a, cn, bn, p, cr, lf⟩ := cfg
  cases cr <;> cases bn <;>
    first
      | exact ⟨fun h => absurd rfl h, fun _ => ⟨rfl, rfl⟩⟩
      | exact ⟨fun _ => ⟨rfl, rfl⟩, fun h => nomatch h⟩

/-- witness for C9's amended statement: an explicit credential is left in
place, the default credential is replaced by the resolved pair. -/
theorem C9_witness :
    (lazyLoadRun cfgSas contDocs).final = cfgSas
    ∧ (lazyLoadRun cfgDefaultCred contDocs).final
        = { cfgDefaultCred with credential := Credential.resolvedPair } :=
  ⟨((C9_config_frame cfgSas contDocs).1 (by decide)).1,
    ((C9_config_frame cfgDefaultCred contDocs).2 rfl).1⟩

/-- Claim C10: a first run (through either entry point) of an instance built
with `credential = None` stores the resolved default-identity pair in the
credential field, and every later run of the same instance — through either
entry point — then fails with `TypeError("Invalid credential type
provided.")` from credential resolution, with an empty network trace. -/
theorem C10_default_credential_single_use (cfg : Config) (c c' : Container)
    (h : cfg.credential = Credential.unset) :
    ((lazyLoadRun cfg c).final.credential = Credential.resolvedPair
      ∧ lazyLoadRun (lazyLoadRun cfg c).final c'
          = ⟨.error (.typeError "Invalid credential type provided."),
              (lazyLoadRun cfg c).final, []⟩
      ∧ alazyLoadRun (lazyLoadRun cfg c).final c'
          = ⟨.error (.typeError "Invalid credential type provided."),
              (lazyLoadRun cfg c).final, []⟩)
    ∧ ((alazyLoadRun cfg c).final.credential = Credential.resolvedPair
      ∧ lazyLoadRun (alazyLoadRun cfg c).final c'
          = ⟨.error (.typeError "Invalid credential type provided."),
              (alazyLoadRun cfg c).final, []⟩
      ∧ alazyLoadRun (alazyLoadRun cfg c).final c'
          = ⟨.error (.typeError "Invalid credential type provided."),
              (alazyLoadRun cfg c).final, []⟩) := by
  obtain ⟨a, cn, bn, p, cr, lf⟩ := cfg
  have hcr : cr = Credential.unset := h
  subst hcr
  cases bn <;> exact ⟨⟨rfl, rfl, rfl⟩, ⟨rfl, rfl, rfl⟩⟩

/-- witness for C10: the concrete default-identity configuration is
single-use — a second blocking run fails with the `TypeError` and performs
no network access. -/
theorem C10_witness :
    lazyLoadRun (lazyLoadRun cfgDefaultCred contDocs).final contDocs
      = ⟨.error (.typeError "Invalid credential type provided."),
          (lazyLoadRun cfgDefaultCred contDocs).final, []⟩ :=
  ((C10_default_credential_single_use cfgDefaultCred contDocs contDocs rfl).1).2.1

end BlobStorageLoader
